import Mathlib

/-
  Verification of the contact-form submission pipeline
  (src/pages/api/contact.ts route and src/lib/logger.ts) against its
  natural-language specification.

  The embedding models strings as Lean String values and JavaScript
  null-or-string form values as Option String, where none stands for the
  null returned by formData.get on a missing field.  JavaScript truthiness
  of such a value is captured by jsTruthy below.
-/

namespace Contact

/-- JavaScript regular-expression whitespace class, the set matched by
backslash-s: tab, line feed, vertical tab, form feed, carriage return,
space, no-break space, ogham space mark, the en-quad .. hair-space range,
line separator, paragraph separator, narrow no-break space, medium
mathematical space, ideographic space, and the byte-order mark. -/
def isJsWs (c : Char) : Bool :=
  c = ' ' || c = '\t' || c = '\n' || c.val = 11 || c.val = 12 || c = '\r' ||
  c.val = 0xa0 || c.val = 0x1680 || (0x2000 ≤ c.val && c.val ≤ 0x200a) ||
  c.val = 0x2028 || c.val = 0x2029 || c.val = 0x202f || c.val = 0x205f ||
  c.val = 0x3000 || c.val = 0xfeff

/-- JavaScript String.prototype.trim: remove leading and trailing
whitespace and line terminators. -/
def jsTrim (l : List Char) : List Char :=
  ((l.dropWhile isJsWs).reverse.dropWhile isJsWs).reverse

/-- Truthiness of a JavaScript string-or-null value: null and the empty
string are falsy, every other string is truthy. -/
def jsTruthy : Option String → Bool
  | none => false
  | some s => !s.isEmpty

/-- The characters of a string-or-null value, reading null as the empty
list.  Used only in positions the code guards by truthiness. -/
def optChars : Option String → List Char
  | none => []
  | some s => s.data

/-- The JavaScript expression a OR b OR default over nullable header or
environment strings, where the empty string is falsy. -/
def jsOrStr (a : Option String) (d : String) : String :=
  match a with
  | some s => if s.isEmpty then d else s
  | none => d

/-- The JavaScript expression a OR b over two nullable strings, keeping
the possibly-null result (used verbatim in the security-event log). -/
def jsOrOpt (a b : Option String) : Option String :=
  match a with
  | some s => if s.isEmpty then b else some s
  | none => b

/-- The record of form fields the handler extracts from the multipart
body; each field is the string returned by formData.get, or none when the
field is absent (formData.get returns null). -/
structure FormData where
  name : Option String
  email : Option String
  phone : Option String
  subject : Option String
  message : Option String
  consent : Option String
deriving Repr, DecidableEq

/-- The ValidationErrors record of the route: one optional message per
field, plus the attachment key merged in by the handler. -/
structure ValidationErrors where
  name : Option String := none
  email : Option String := none
  phone : Option String := none
  subject : Option String := none
  message : Option String := none
  consent : Option String := none
  attachment : Option String := none
deriving Repr, DecidableEq

/-- The attachment file as the route reads it: name, byte size, and MIME
type. -/
structure FileData where
  name : String
  size : Nat
  type : String
deriving Repr, DecidableEq

/-- A character admitted by the bracket class excluding whitespace and the
at-sign, from the email pattern of validateEmail. -/
def validEmailChar (c : Char) : Bool := !(isJsWs c) && c != '@'

/-- validateEmail: test of the anchored pattern one-or-more
non-whitespace-non-at characters, an at-sign, one-or-more such characters,
a dot, then one-or-more such characters.  The string matches exactly when
it splits at its first at-sign into a nonempty valid local part and a
remainder with no at-sign or whitespace carrying a dot at an interior
position. -/
def validateEmail (email : String) : Bool :=
  let cs := email.data
  let a := cs.takeWhile (fun c => c != '@')
  match cs.dropWhile (fun c => c != '@') with
  | [] => false
  | _ :: tail =>
      !a.isEmpty && a.all validEmailChar && tail.all validEmailChar &&
      ((tail.drop 1).dropLast.contains '.')

/-- An ASCII digit, the class backslash-d without the unicode flag. -/
def isAsciiDigit (c : Char) : Bool := '0' ≤ c && c ≤ '9'

/-- The body of the phone pattern after the optional plus sign: a digit
one to nine followed by at most fifteen digits. -/
def phoneCore : List Char → Bool
  | [] => false
  | c :: rest => ('1' ≤ c && c ≤ '9') && rest.length ≤ 15 && rest.all isAsciiDigit

/-- Test of the anchored phone pattern: an optional plus sign, a digit one
to nine, then zero to fifteen digits. -/
def phoneTest : List Char → Bool
  | '+' :: rest => phoneCore rest
  | l => phoneCore l

/-- A character removed by the replace call of validatePhone: whitespace,
hyphen, or a parenthesis. -/
def strippedPhoneChar (c : Char) : Bool :=
  isJsWs c || c = '-' || c = '(' || c = ')'

/-- The stripping replace of validatePhone. -/
def stripPhone (l : List Char) : List Char :=
  l.filter (fun c => !(strippedPhoneChar c))

/-- validatePhone of the route: the empty string is accepted (optional
field), otherwise the stripped string must match the phone pattern. -/
def validatePhone (phone : String) : Bool :=
  if phone.isEmpty then true
  else phoneTest (stripPhone phone.data)

/-- validateFormData of the route: each field checked independently, the
error map holding a message for every failing field. -/
def validateFormData (data : FormData) : ValidationErrors where
  name :=
    if !(jsTruthy data.name) || (jsTrim (optChars data.name)).length < 2 then
      some "Name must be at least 2 characters long"
    else none
  email :=
    if !(jsTruthy data.email) then some "Email is required"
    else if !(validateEmail (data.email.getD "")) then
      some "Please enter a valid email address"
    else none
  phone :=
    if jsTruthy data.phone && !(validatePhone (data.phone.getD "")) then
      some "Please enter a valid phone number"
    else none
  subject :=
    if !(jsTruthy data.subject) || data.subject == some "" then
      some "Please select a subject"
    else none
  message :=
    if !(jsTruthy data.message) || (jsTrim (optChars data.message)).length < 10 then
      some "Message must be at least 10 characters long"
    else none
  consent :=
    if !(jsTruthy data.consent) then
      some "You must agree to the terms and conditions"
    else none

/-- The allowed MIME types of validateFile, in source order. -/
def allowedTypes : List String :=
  ["application/pdf",
   "application/msword",
   "application/vnd.openxmlformats-officedocument.wordprocessingml.document",
   "text/plain",
   "image/jpeg",
   "image/jpg",
   "image/png",
   "image/gif"]

/-- validateFile of the route: no file is valid; a file over five
mebibytes is rejected on size (checked first); otherwise a file whose
MIME type is outside the allowed list is rejected on type. -/
def validateFile : Option FileData → Option String
  | none => none
  | some file =>
      if 5 * 1024 * 1024 < file.size then
        some "File size must be less than 5MB"
      else if !(allowedTypes.contains file.type) then
        some "File type not allowed. Please upload PDF, DOC, DOCX, TXT, JPG, JPEG, PNG, or GIF files"
      else none

/-- The error map the handler tests: field errors from validateFormData
with any file error merged under the attachment key (both file messages
are nonempty strings, so the truthiness test of the code coincides with
presence). -/
def combinedErrors (fields : FormData) (att : Option FileData) : ValidationErrors :=
  let e := validateFormData fields
  match validateFile att with
  | some msg => { e with attachment := some msg }
  | none => e

/-- Object.keys of a ValidationErrors record, in assignment order: the six
field checks of validateFormData followed by the attachment key. -/
def errorKeys (e : ValidationErrors) : List String :=
  (if e.name.isSome then ["name"] else []) ++
  (if e.email.isSome then ["email"] else []) ++
  (if e.phone.isSome then ["phone"] else []) ++
  (if e.subject.isSome then ["subject"] else []) ++
  (if e.message.isSome then ["message"] else []) ++
  (if e.consent.isSome then ["consent"] else []) ++
  (if e.attachment.isSome then ["attachment"] else [])

/-- The keys of the subjectOptions table of the route, the subject enum of
the form. -/
def subjectOptionKeys : List String :=
  ["general", "support", "partnership", "feedback", "other"]

/-- Lookup in the subjectOptions table with the fallback to the raw value,
as in the template expression selecting the display label. -/
def subjectLabel (s : String) : String :=
  if s = "general" then "General Inquiry"
  else if s = "support" then "Technical Support"
  else if s = "partnership" then "Partnership Opportunity"
  else if s = "feedback" then "Feedback & Suggestions"
  else if s = "other" then "Other"
  else s

/-- The segment of a string between its first and second at-sign, as
produced by split at the at-sign indexed at one; a string with no at-sign
yields the interpolation of undefined. -/
def splitAtSign (s : String) : String :=
  match s.data.dropWhile (fun c => c != '@') with
  | [] => "undefined"
  | _ :: rest => String.mk (rest.takeWhile (fun c => c != '@'))

/-- The email-masking expression of the route: a falsy email logs as
missing, otherwise the first three characters, three asterisks, an
at-sign, and the domain part. -/
def maskEmail : Option String → String
  | none => "missing"
  | some s =>
      if s.isEmpty then "missing"
      else String.mk (s.data.take 3) ++ "***@" ++ splitAtSign s

/-- The JSON body of a response of the route: the 400 body carrying the
error map and the echoed fields with success false, a 500 body carrying a
single error string with success false, or the 200 body carrying the
success message with success true. -/
inductive ResponseBody where
  | validationErr (errors : ValidationErrors) (data : FormData)
  | serverErr (error : String)
  | okMsg (message : String)
deriving Repr, DecidableEq

/-- The success field serialized in each body shape. -/
def bodySuccess : ResponseBody → Bool
  | .validationErr _ _ => false
  | .serverErr _ => false
  | .okMsg _ => true

/-- An HTTP response of the route: status, the Content-Type header value,
and the JSON body. -/
structure HttpResponse where
  status : Nat
  contentType : String
  body : ResponseBody
deriving Repr, DecidableEq

/-- One structured log record received by the logger during a request,
capturing the data values the route passes to each logging call. -/
inductive LogEvent where
  | request (method path userAgent ip : String)
  | submissionAttempt (maskedEmail : String) (subject : Option String)
      (hasAttachment : Bool) (attachmentSize : Nat)
  | validationFailed (errorFields : List String) (maskedEmail : String)
  | validationPassed (maskedEmail : String) (subject : Option String)
  | emailSending (toAddr : String) (subject : String) (hasAttachment : Bool)
  | performanceLog (operation : String)
  | errorLog (message : String) (maskedEmail : Option String)
      (providerDetail : Option String)
  | emailSent (emailId : String) (maskedEmail : String)
  | securityEvent (event : String) (userAgent : Option String) (ip : Option String)
  | responseLog (status : Nat)
deriving Repr, DecidableEq

/-- One invocation of the email provider send call. -/
structure DispatchCall where
  fromAddr : String
  toAddr : String
  subject : String
  hasAttachment : Bool
deriving Repr, DecidableEq

/-- Outcome of reading the multipart body: a thrown parse error routed to
the catch block, or the extracted fields and optional attachment. -/
inductive ParseOutcome where
  | parseError (message : String)
  | parsed (fields : FormData) (attachment : Option FileData)
deriving Repr, DecidableEq

/-- Behaviour of the email provider for this request: a result object
with a data id, a result object with an error message, or a thrown
exception routed to the catch block. -/
inductive ProviderBehavior where
  | succeed (emailId : String)
  | fail (message : String)
  | throwErr (message : String)
deriving Repr, DecidableEq

/-- One incoming request together with the environment the route reads:
the parse outcome, the provider behaviour, whether the Resend API key is
configured, the FROM and TO environment addresses, and the user-agent and
client-address headers. -/
structure HandlerInput where
  parse : ParseOutcome
  provider : ProviderBehavior
  resendConfigured : Bool
  fromEmailEnv : Option String
  toEmailEnv : Option String
  userAgent : Option String
  xForwardedFor : Option String
  xRealIp : Option String
deriving Repr, DecidableEq

/-- Everything observable about one execution of the handler: the HTTP
response, the sequence of log records, and the provider calls made. -/
structure HandlerOutput where
  response : HttpResponse
  log : List LogEvent
  dispatchCalls : List DispatchCall
deriving Repr, DecidableEq

/-- The POST handler of the contact route, as a function from one request
and its environment to the response, the log trace, and the dispatch
calls.  It follows the source control flow: log the request; on a body
parse failure fall to the catch block; otherwise log the submission
attempt, validate, and on any error log the failure and return 400 with
the error map and the six echoed fields; otherwise log validation passed
and the sending event, return the configuration 500 if the provider
client is absent, and otherwise dispatch once and map the provider
outcome to 200, the dispatch-failure 500, or the catch-block 500. -/
def POST (inp : HandlerInput) : HandlerOutput :=
  let reqEvent := LogEvent.request "POST" "/api/contact"
      (jsOrStr inp.userAgent "unknown")
      (jsOrStr inp.xForwardedFor (jsOrStr inp.xRealIp "unknown"))
  match inp.parse with
  | .parseError msg =>
      { response := ⟨500, "application/json",
          .serverErr "An unexpected error occurred. Please try again later."⟩,
        log := [reqEvent,
          .errorLog msg none none,
          .securityEvent "unexpected_error" inp.userAgent
            (jsOrOpt inp.xForwardedFor inp.xRealIp),
          .responseLog 500],
        dispatchCalls := [] }
  | .parsed fields att =>
      let masked := maskEmail fields.email
      let attSize := match att with | some f => f.size | none => 0
      let attemptEvent :=
        LogEvent.submissionAttempt masked fields.subject att.isSome attSize
      let errors := combinedErrors fields att
      if 0 < (errorKeys errors).length then
        { response := ⟨400, "application/json", .validationErr errors fields⟩,
          log := [reqEvent, attemptEvent,
            .validationFailed (errorKeys errors) masked,
            .responseLog 400],
          dispatchCalls := [] }
      else
        let passedEvent := LogEvent.validationPassed masked fields.subject
        let emailSubject := "Contact Form: " ++ subjectLabel (fields.subject.getD "")
        let sendingEvent := LogEvent.emailSending
          (jsOrStr inp.toEmailEnv "hello@example.com") emailSubject att.isSome
        if inp.resendConfigured then
          let call : DispatchCall :=
            ⟨jsOrStr inp.fromEmailEnv "noreply@yourdomain.com",
             jsOrStr inp.toEmailEnv "hello@example.com",
             emailSubject, att.isSome⟩
          match inp.provider with
          | .succeed emailId =>
              { response := ⟨200, "application/json", .okMsg "Email sent successfully"⟩,
                log := [reqEvent, attemptEvent, passedEvent, sendingEvent,
                  .performanceLog "email_send",
                  .emailSent emailId masked,
                  .responseLog 200],
                dispatchCalls := [call] }
          | .fail m =>
              { response := ⟨500, "application/json",
                  .serverErr "Failed to send email. Please try again later."⟩,
                log := [reqEvent, attemptEvent, passedEvent, sendingEvent,
                  .performanceLog "email_send",
                  .errorLog ("Resend error: " ++ m) (some masked) (some m),
                  .responseLog 500],
                dispatchCalls := [call] }
          | .throwErr m =>
              { response := ⟨500, "application/json",
                  .serverErr "An unexpected error occurred. Please try again later."⟩,
                log := [reqEvent, attemptEvent, passedEvent, sendingEvent,
                  .errorLog m none none,
                  .securityEvent "unexpected_error" inp.userAgent
                    (jsOrOpt inp.xForwardedFor inp.xRealIp),
                  .responseLog 500],
                dispatchCalls := [call] }
        else
          { response := ⟨500, "application/json",
              .serverErr "Email service not configured. Please try again later."⟩,
            log := [reqEvent, attemptEvent, passedEvent, sendingEvent,
              .errorLog "Resend API key not configured" (some masked) none,
              .responseLog 500],
            dispatchCalls := [] }

/-- A record of empty form fields: every text field submitted as the
empty string, used as the all-required-fields-empty submission. -/
def emptyFields : FormData :=
  ⟨some "", some "", some "", some "", some "", some ""⟩

/-- A fully valid record of form fields. -/
def validFields : FormData :=
  ⟨some "John Doe", some "john@example.com", none, some "general",
   some "Hello, this is a long enough message.", some "on"⟩

/-- A baseline request input: fields parse successfully, the provider
would succeed, and the service is configured. -/
def baseInput (fields : FormData) (att : Option FileData) : HandlerInput :=
  ⟨.parsed fields att, .succeed "email-1", true, none, none, none, none, none⟩

/-- Claim C1: whenever any field of a submission fails validation (the
combined error map is nonempty), the handler responds 400 with a body
carrying success false, the full error map of every failing field, and
the submitted fields; and the all-empty submission yields exactly the
five entries name, email, subject, message, consent. -/
theorem C1_reject_with_all_failing_fields (inp : HandlerInput)
    (fields : FormData) (att : Option FileData)
    (hp : inp.parse = .parsed fields att)
    (hne : errorKeys (combinedErrors fields att) ≠ []) :
    (POST inp).response.status = 400 ∧
    (POST inp).response.body = .validationErr (combinedErrors fields att) fields ∧
    errorKeys (combinedErrors emptyFields none) =
      ["name", "email", "subject", "message", "consent"] := by
  have h0 : 0 < (errorKeys (combinedErrors fields att)).length :=
    List.length_pos.mpr hne
  refine ⟨?_, ?_, by decide⟩ <;> simp [POST, hp, h0]

/-- Witness for C1 at the all-empty submission. -/
theorem C1_witness :
    (POST (baseInput emptyFields none)).response.status = 400 ∧
    (POST (baseInput emptyFields none)).response.body =
      .validationErr (combinedErrors emptyFields none) emptyFields ∧
    errorKeys (combinedErrors emptyFields none) =
      ["name", "email", "subject", "message", "consent"] :=
  C1_reject_with_all_failing_fields (baseInput emptyFields none)
    emptyFields none rfl (by decide)

/-- Claim C2, counterexample: the subject value banana is nonempty and
not one of the allowed enum values, yet the validator produces no subject
error, so the claim that such a value yields the subject error is false. -/
theorem C2_counterexample :
    "banana" ∉ subjectOptionKeys ∧ "banana" ≠ "" ∧
    (validateFormData { validFields with subject := some "banana" }).subject
      = none := by
  exact ⟨by decide, by decide, by decide⟩

/-- Claim C2 as amended: the validator produces the subject error exactly
when the subject form value is absent or the empty string; any nonempty
subject string, enum member or not, produces no subject error. -/
theorem C2_subject_error_iff_empty (fd : FormData) :
    (validateFormData fd).subject =
      (if fd.subject = none ∨ fd.subject = some "" then
        some "Please select a subject"
      else none) := by
  rcases fd with ⟨n, e, p, s, m, c⟩
  cases s with
  | none => simp [validateFormData, jsTruthy]
  | some s =>
      by_cases hs : s = "" <;>
        simp [validateFormData, jsTruthy, hs, String.isEmpty_iff]

/-- Claim C3, counterexample: with the provider client unconfigured, a
valid submission yields a 500 whose error message is the configuration
message, which is neither of the two messages the claim allows. -/
theorem C3_counterexample :
    (POST { baseInput validFields none with resendConfigured := false
      }).response.status = 500 ∧
    (POST { baseInput validFields none with resendConfigured := false
      }).response.body =
      .serverErr "Email service not configured. Please try again later." ∧
    "Email service not configured. Please try again later." ≠
      "Failed to send email. Please try again later." ∧
    "Email service not configured. Please try again later." ≠
      "An unexpected error occurred. Please try again later." := by
  exact ⟨by decide, by decide, by decide, by decide⟩

/-- Claim C3 as amended: every 500 response of the handler carries an
error message equal to one of exactly three fixed strings: the
configuration message, the dispatch-failure message, or the
unexpected-error message. -/
theorem C3_500_messages (inp : HandlerInput)
    (h : (POST inp).response.status = 500) :
    ∃ m, (POST inp).response.body = .serverErr m ∧
      m ∈ (["Email service not configured. Please try again later.",
            "Failed to send email. Please try again later.",
            "An unexpected error occurred. Please try again later."] :
           List String) := by
  obtain ⟨parse, provider, configured, fe, te, ua, xff, xrip⟩ := inp
  cases parse with
  | parseError msg =>
      exact ⟨"An unexpected error occurred. Please try again later.",
        by simp [POST], by simp⟩
  | parsed fields att =>
      by_cases h0 : 0 < (errorKeys (combinedErrors fields att)).length
      · simp [POST, h0] at h
      · cases configured with
        | false =>
            exact ⟨"Email service not configured. Please try again later.",
              by simp [POST, h0], by simp⟩
        | true =>
            cases provider with
            | succeed emailId => simp [POST, h0] at h
            | fail m =>
                exact ⟨"Failed to send email. Please try again later.",
                  by simp [POST, h0], by simp⟩
            | throwErr m =>
                exact ⟨"An unexpected error occurred. Please try again later.",
                  by simp [POST, h0], by simp⟩

/-- Witness for C3 as amended, at a dispatch failure. -/
theorem C3_witness :
    ∃ m, (POST { baseInput validFields none with provider := .fail "boom"
        }).response.body = .serverErr m ∧
      m ∈ (["Email service not configured. Please try again later.",
            "Failed to send email. Please try again later.",
            "An unexpected error occurred. Please try again later."] :
           List String) :=
  C3_500_messages { baseInput validFields none with provider := .fail "boom" }
    (by decide)

/-- Claim C4, exhibiting the code bug: for a request carrying the
x-forwarded-for header 203.0.113.7, the very first log record the
structured logger receives from the handler (the logRequest call) carries
that client IP address verbatim, unmasked, contradicting the privacy
contract that the logger never receives an unmasked IP.  The recipient
address passed to the sending log event is likewise the raw configured
address. -/
theorem C4_unmasked_ip_reaches_logger :
    LogEvent.request "POST" "/api/contact" "unknown" "203.0.113.7" ∈
      (POST { baseInput validFields none with
                xForwardedFor := some "203.0.113.7" }).log ∧
    LogEvent.emailSending "owner@example.org"
        "Contact Form: General Inquiry" false ∈
      (POST { baseInput validFields none with
                xForwardedFor := some "203.0.113.7",
                toEmailEnv := some "owner@example.org" }).log := by
  exact ⟨by decide, by decide⟩

/-- Claim C5: when validation fails (the combined error map is nonempty),
the handler makes no call at all to the email provider and returns the
400 response. -/
theorem C5_no_dispatch_when_invalid (inp : HandlerInput)
    (fields : FormData) (att : Option FileData)
    (hp : inp.parse = .parsed fields att)
    (hne : errorKeys (combinedErrors fields att) ≠ []) :
    (POST inp).dispatchCalls = [] ∧ (POST inp).response.status = 400 := by
  have h0 : 0 < (errorKeys (combinedErrors fields att)).length :=
    List.length_pos.mpr hne
  constructor <;> simp [POST, hp, h0]

/-- Witness for C5 at the all-empty submission. -/
theorem C5_witness :
    (POST (baseInput emptyFields none)).dispatchCalls = [] ∧
    (POST (baseInput emptyFields none)).response.status = 400 :=
  C5_no_dispatch_when_invalid (baseInput emptyFields none)
    emptyFields none rfl (by decide)

/-- Claim C6: for a valid submission whose dispatch returns a provider
error, the handler responds 500 with exactly the fixed dispatch-failure
body, a constant independent of the provider message, and the provider
message appears in the error log record (and only there: the body equals
the fixed constant whatever the provider message is). -/
theorem C6_provider_error_hidden (inp : HandlerInput)
    (fields : FormData) (att : Option FileData) (m : String)
    (hp : inp.parse = .parsed fields att)
    (hv : errorKeys (combinedErrors fields att) = [])
    (hc : inp.resendConfigured = true)
    (hm : inp.provider = .fail m) :
    (POST inp).response.status = 500 ∧
    (POST inp).response.body =
      .serverErr "Failed to send email. Please try again later." ∧
    LogEvent.errorLog ("Resend error: " ++ m) (some (maskEmail fields.email))
        (some m) ∈ (POST inp).log := by
  have h0 : ¬ 0 < (errorKeys (combinedErrors fields att)).length := by
    simp [hv]
  refine ⟨?_, ?_, ?_⟩ <;> simp [POST, hp, hm, hc, h0]

/-- Witness for C6 at a valid submission and the provider message boom. -/
theorem C6_witness :
    (POST { baseInput validFields none with provider := .fail "boom"
      }).response.status = 500 ∧
    (POST { baseInput validFields none with provider := .fail "boom"
      }).response.body =
      .serverErr "Failed to send email. Please try again later." ∧
    LogEvent.errorLog ("Resend error: " ++ "boom")
        (some (maskEmail validFields.email)) (some "boom") ∈
      (POST { baseInput validFields none with provider := .fail "boom" }).log :=
  C6_provider_error_hidden
    { baseInput validFields none with provider := .fail "boom" }
    validFields none "boom" rfl (by decide) rfl rfl

/-- Claim C7: the phone error is produced exactly for a present, nonempty
phone value whose string, after stripping whitespace, hyphens, and
parentheses, fails the anchored pattern of an optional plus sign, a digit
one to nine, and at most fifteen further digits; an absent or empty phone
never produces a phone error. -/
theorem C7_phone_rule (fd : FormData) :
    (validateFormData fd).phone =
      (match fd.phone with
       | none => none
       | some s =>
           if s = "" then none
           else if phoneTest (stripPhone s.data) then none
           else some "Please enter a valid phone number") := by
  rcases fd with ⟨n, e, p, s, m, c⟩
  cases p with
  | none => simp [validateFormData, jsTruthy]
  | some ph =>
      by_cases hph : ph = ""
      · simp [validateFormData, jsTruthy, validatePhone, hph,
          String.isEmpty_iff]
      · cases hx : phoneTest (stripPhone ph.data) <;>
          simp [validateFormData, jsTruthy, validatePhone, hph, hx,
            String.isEmpty_iff]

/-- Claim C8: no file passes; a file over five mebibytes is rejected with
the size message whatever its type (size is checked first); a file within
the size cap is rejected with the type message exactly when its MIME type
is outside the eight allowed types. -/
theorem C8_validateFile_rules :
    validateFile none = none ∧
    (∀ f : FileData, 5 * 1024 * 1024 < f.size →
       validateFile (some f) = some "File size must be less than 5MB") ∧
    (∀ f : FileData, f.size ≤ 5 * 1024 * 1024 →
       validateFile (some f) =
         (if f.type ∈ (["application/pdf", "application/msword",
              "application/vnd.openxmlformats-officedocument.wordprocessingml.document",
              "text/plain", "image/jpeg", "image/jpg", "image/png",
              "image/gif"] : List String) then none
          else some "File type not allowed. Please upload PDF, DOC, DOCX, TXT, JPG, JPEG, PNG, or GIF files")) := by
  refine ⟨rfl, ?_, ?_⟩
  · intro f hf
    simp [validateFile, hf]
  · intro f hf
    have hns : ¬ 5 * 1024 * 1024 < f.size := not_lt.mpr hf
    have hfold : (["application/pdf", "application/msword",
        "application/vnd.openxmlformats-officedocument.wordprocessingml.document",
        "text/plain", "image/jpeg", "image/jpg", "image/png",
        "image/gif"] : List String) = allowedTypes := rfl
    rw [hfold]
    by_cases ht : f.type ∈ allowedTypes
    · have hb : allowedTypes.contains f.type = true := by
        simp [List.contains, List.elem_iff, ht]
      simp [validateFile, hns, hb, ht]
    · have hb : allowedTypes.contains f.type = false := by
        simp [List.contains, List.elem_iff, ht]
      simp [validateFile, hns, hb, ht]

/-- Witness for C8: an oversized file of a disallowed type is rejected on
size, and a small PDF passes the type test. -/
theorem C8_witness :
    validateFile (some ⟨"big.bin", 5 * 1024 * 1024 + 1, "application/x-bin"⟩) =
      some "File size must be less than 5MB" ∧
    validateFile (some ⟨"cv.pdf", 1000, "application/pdf"⟩) =
      (if "application/pdf" ∈ (["application/pdf", "application/msword",
           "application/vnd.openxmlformats-officedocument.wordprocessingml.document",
           "text/plain", "image/jpeg", "image/jpg", "image/png",
           "image/gif"] : List String) then none
       else some "File type not allowed. Please upload PDF, DOC, DOCX, TXT, JPG, JPEG, PNG, or GIF files") :=
  ⟨C8_validateFile_rules.2.1 ⟨"big.bin", 5 * 1024 * 1024 + 1, "application/x-bin"⟩
      (by norm_num),
   C8_validateFile_rules.2.2 ⟨"cv.pdf", 1000, "application/pdf"⟩ (by norm_num)⟩

/-- Claim C9: the server-side consent check is a raw-string truthiness
test: the consent error appears exactly when the consent form value is
absent or the empty string, so the nonempty strings false and off pass. -/
theorem C9_consent_raw_string :
    (∀ fd : FormData, (validateFormData fd).consent =
       (if fd.consent = none ∨ fd.consent = some "" then
         some "You must agree to the terms and conditions"
       else none)) ∧
    (validateFormData { validFields with consent := some "false" }).consent
      = none ∧
    (validateFormData { validFields with consent := some "off" }).consent
      = none := by
  refine ⟨?_, by decide, by decide⟩
  intro fd
  rcases hc : fd.consent with _ | s
  · simp [validateFormData, jsTruthy, hc]
  · by_cases hs : s = "" <;>
      simp [validateFormData, jsTruthy, hc, hs, String.isEmpty_iff]

/-- Claim C10: on every path the response carries the JSON content type,
a status among 200, 400, 500, a success field that is true exactly on
status 200, and the 400 body echoes exactly the six extracted text fields
(the FormData record) with the error map, never the attachment. -/
theorem C10_response_shape (inp : HandlerInput) :
    (POST inp).response.contentType = "application/json" ∧
    (POST inp).response.status ∈ ([200, 400, 500] : List Nat) ∧
    (bodySuccess (POST inp).response.body = true ↔
       (POST inp).response.status = 200) ∧
    (∀ fields att, inp.parse = .parsed fields att →
       (POST inp).response.status = 400 →
       (POST inp).response.body =
         .validationErr (combinedErrors fields att) fields) := by
  obtain ⟨parse, provider, configured, fe, te, ua, xff, xrip⟩ := inp
  cases parse with
  | parseError msg =>
      refine ⟨by simp [POST], by simp [POST],
        by simp [POST, bodySuccess], ?_⟩
      intro f2 a2 hpe
      simp at hpe
  | parsed fields att =>
      by_cases h0 : 0 < (errorKeys (combinedErrors fields att)).length
      · refine ⟨by simp [POST, h0], by simp [POST, h0],
          by simp [POST, h0, bodySuccess], ?_⟩
        intro f2 a2 hpe _
        injection hpe with h1 h2
        subst h1
        subst h2
        simp [POST, h0]
      · cases configured with
        | false =>
            refine ⟨by simp [POST, h0], by simp [POST, h0],
              by simp [POST, h0, bodySuccess], ?_⟩
            intro f2 a2 hpe h400
            injection hpe with h1 h2
            subst h1
            subst h2
            simp [POST, h0] at h400
        | true =>
            cases provider with
            | succeed emailId =>
                refine ⟨by simp [POST, h0], by simp [POST, h0],
                  by simp [POST, h0, bodySuccess], ?_⟩
                intro f2 a2 hpe h400
                injection hpe with h1 h2
                subst h1
                subst h2
                simp [POST, h0] at h400
            | fail m =>
                refine ⟨by simp [POST, h0], by simp [POST, h0],
                  by simp [POST, h0, bodySuccess], ?_⟩
                intro f2 a2 hpe h400
                injection hpe with h1 h2
                subst h1
                subst h2
                simp [POST, h0] at h400
            | throwErr m =>
                refine ⟨by simp [POST, h0], by simp [POST, h0],
                  by simp [POST, h0, bodySuccess], ?_⟩
                intro f2 a2 hpe h400
                injection hpe with h1 h2
                subst h1
                subst h2
                simp [POST, h0] at h400

/-- Witness for C10 at the all-empty submission, whose response is the
400 with the six echoed fields. -/
theorem C10_witness :
    (POST (baseInput emptyFields none)).response.contentType =
      "application/json" ∧
    (POST (baseInput emptyFields none)).response.body =
      .validationErr (combinedErrors emptyFields none) emptyFields :=
  ⟨(C10_response_shape (baseInput emptyFields none)).1,
   (C10_response_shape (baseInput emptyFields none)).2.2.2 emptyFields none
     rfl (by decide)⟩

end Contact
